import Mathlib

/-!
Verification of the aggregation logic of the Twitter brand sentiment
analysis script (`TWITTER_BRAND_SENTIMENT_ANALYSIS.py`).

The script loads a table of records (id, brand, sentiment label, tweet
text), computes per-brand health metrics in `calculate_brand_metrics`,
categorizes brands into industries in `categorize_brand`, and writes the
metric table to a CSV file.  We embed the record table as a `List Record`,
exact Python arithmetic over `ℚ`, Python's `round(x, 2)` as round-half-even
to two decimal places over `ℚ`, and pandas `sort_values(ascending=False)`
as an insertion sort by the descending key.
-/

namespace TwitterSentiment

/-- A row of the combined input table: columns ID, Brand, Sentiment, Tweet
(script lines 21-25). -/
structure Record where
  id : Int
  brand : String
  sentiment : String
  text : String
deriving DecidableEq, Repr

/-- A row of the categorized table after `df['Category'] = df['Brand'].apply(categorize_brand)`
(script line 170): the four original columns plus the added Category column. -/
structure RecordC where
  id : Int
  brand : String
  sentiment : String
  text : String
  category : String
deriving DecidableEq, Repr

/-- A row of the brand metric table built in `calculate_brand_metrics`
(script lines 77-88), with the dict keys as fields in insertion order.
`positivePct` and `negativePct` are the stored Positive_Ratio and
Negative_Ratio columns. -/
structure BrandMetric where
  brand : String
  total_mentions : Nat
  positive : Nat
  negative : Nat
  neutral : Nat
  irrelevant : Nat
  sentiment_score : ℚ
  positivePct : ℚ
  negativePct : ℚ
  brand_health : String
deriving DecidableEq, Repr

/-- The static list `tech_brands` (script line 152). -/
def tech_brands : List String := ["Microsoft", "Google", "Apple", "Amazon", "Nvidia"]

/-- The static list `gaming_brands` (script lines 153-154). -/
def gaming_brands : List String :=
  ["CallOfDuty", "FIFA", "CS-GO", "Fortnite", "ApexLegends", "PUBG", "NBA2K",
   "Overwatch", "GTA", "RDR", "Hearthstone", "Dota2", "LeagueOfLegends"]

/-- The static list `telecom_brands` (script line 155). -/
def telecom_brands : List String := ["Verizon", "Comcast", "ATT"]

/-- The static list `social_brands` (script line 156). -/
def social_brands : List String := ["Facebook", "Twitter", "Instagram"]

/-- The function `categorize_brand` (script lines 158-168): membership tests
against the four static lists, defaulting to Other. -/
def categorize_brand (brand : String) : String :=
  if brand ∈ tech_brands then "Technology"
  else if brand ∈ gaming_brands then "Gaming"
  else if brand ∈ telecom_brands then "Telecom"
  else if brand ∈ social_brands then "Social Media"
  else "Other"

/-- The categorization step `df['Category'] = df['Brand'].apply(categorize_brand)`
(script line 170), modelled as producing a new table whose rows carry the four
original columns plus the computed Category. -/
def addCategory (df : List Record) : List RecordC :=
  df.map (fun r => ⟨r.id, r.brand, r.sentiment, r.text, categorize_brand r.brand⟩)

/-- Projection of a categorized row back onto the four original columns. -/
def stripCategory (r : RecordC) : Record :=
  ⟨r.id, r.brand, r.sentiment, r.text⟩

/-- First-occurrence deduplication with an accumulator of already seen values;
`uniqueAux seen l` keeps the elements of `l` not in `seen`, first occurrence
first. -/
def uniqueAux (seen : List String) : List String → List String
  | [] => []
  | b :: rest =>
      if b ∈ seen then uniqueAux seen rest else b :: uniqueAux (b :: seen) rest

/-- The brand iteration domain `df['Brand'].unique()` (script line 61): the
distinct brand names of the table in first-occurrence order. -/
def uniqueBrands (df : List Record) : List String :=
  uniqueAux [] (df.map (fun r => r.brand))

/-- The per-brand sub-table `brand_data = df[df['Brand'] == brand]` (script line 62). -/
def brandData (df : List Record) (b : String) : List Record :=
  df.filter (fun r => r.brand == b)

/-- The count `total = len(brand_data)` (script line 63). -/
def totalMentions (df : List Record) (b : String) : Nat :=
  (brandData df b).length

/-- The sentiment counts `len(brand_data[brand_data['Sentiment'] == s])`
(script lines 66-69). -/
def sentCount (df : List Record) (b : String) (s : String) : Nat :=
  ((brandData df b).filter (fun r => r.sentiment == s)).length

/-- The exact (unrounded) value of `sentiment_score = ((pos - neg) / total * 100)
if total > 0 else 0` (script line 72), over exact rational arithmetic. -/
def exactScore (df : List Record) (b : String) : ℚ :=
  if 0 < totalMentions df b then
    ((sentCount df b "Positive" : ℚ) - (sentCount df b "Negative" : ℚ))
      / (totalMentions df b : ℚ) * 100
  else 0

/-- The exact (unrounded) value of the guarded percentage
`(cnt / total * 100) if total > 0 else 0` used for `positive_ratio` and
`negative_ratio` (script lines 73-74). -/
def pctOf (df : List Record) (b : String) (s : String) : ℚ :=
  if 0 < totalMentions df b then
    (sentCount df b s : ℚ) / (totalMentions df b : ℚ) * 100
  else 0

/-- Round-half-even to the nearest integer, the tie-breaking rule of Python's
built-in `round`. -/
def roundHalfEven (x : ℚ) : Int :=
  let f : Int := ⌊x⌋
  if x - f < 1 / 2 then f
  else if 1 / 2 < x - f then f + 1
  else if f % 2 = 0 then f else f + 1

/-- Python's `round(x, 2)` (script lines 84-86) over exact rationals. -/
def roundTo2 (x : ℚ) : ℚ :=
  (roundHalfEven (x * 100) : ℚ) / 100

/-- The health label expression (script line 87):
`'Excellent' if sentiment_score > 20 else ('Good' if sentiment_score > 0 else
('Poor' if sentiment_score < -20 else 'Fair'))`, applied to the exact score. -/
def healthLabel (s : ℚ) : String :=
  if 20 < s then "Excellent"
  else if 0 < s then "Good"
  else if s < -20 then "Poor"
  else "Fair"

/-- The metric dict appended for one brand (script lines 77-88): counts,
rounded score and percentages, and the health label computed from the exact
(unrounded) score. -/
def brandRow (df : List Record) (b : String) : BrandMetric :=
  { brand := b
    total_mentions := totalMentions df b
    positive := sentCount df b "Positive"
    negative := sentCount df b "Negative"
    neutral := sentCount df b "Neutral"
    irrelevant := sentCount df b "Irrelevant"
    sentiment_score := roundTo2 (exactScore df b)
    positivePct := roundTo2 (pctOf df b "Positive")
    negativePct := roundTo2 (pctOf df b "Negative")
    brand_health := healthLabel (exactScore df b) }

/-- The descending sort key of `sort_values('Total_Mentions', ascending=False)`
(script line 90): `a` may precede `b` when `a`'s total mentions are at least
`b`'s. -/
def byMentionsDesc (a b : BrandMetric) : Prop :=
  b.total_mentions ≤ a.total_mentions

instance : DecidableRel byMentionsDesc :=
  fun a b => Nat.decLe b.total_mentions a.total_mentions

instance : IsTotal BrandMetric byMentionsDesc :=
  ⟨fun a b => Nat.le_total b.total_mentions a.total_mentions⟩

instance : IsTrans BrandMetric byMentionsDesc :=
  ⟨fun _ _ _ hab hbc => Nat.le_trans hbc hab⟩

/-- The function `calculate_brand_metrics` (script lines 57-90): one metric row
per distinct brand, sorted by total mentions descending. -/
def calculate_brand_metrics (df : List Record) : List BrandMetric :=
  ((uniqueBrands df).map (brandRow df)).insertionSort byMentionsDesc

/-- A cell value of the output CSV row. -/
inductive MetricValue where
  | str (s : String)
  | nat (n : Nat)
  | rat (q : ℚ)
deriving DecidableEq, Repr

/-- One output row as the ordered column-name/value pairs of the dict built at
script lines 77-88, which is the column order of the DataFrame and of
`brand_health_metrics.csv` (script line 100). -/
def metricRow (m : BrandMetric) : List (String × MetricValue) :=
  [("Brand", .str m.brand),
   ("Total_Mentions", .nat m.total_mentions),
   ("Positive", .nat m.positive),
   ("Negative", .nat m.negative),
   ("Neutral", .nat m.neutral),
   ("Irrelevant", .nat m.irrelevant),
   ("Sentiment_Score", .rat m.sentiment_score),
   ("Positive_Ratio", .rat m.positivePct),
   ("Negative_Ratio", .rat m.negativePct),
   ("Brand_Health", .str m.brand_health)]

/-- The four sentiment labels of the data model. -/
def sentimentLabels : List String := ["Positive", "Negative", "Neutral", "Irrelevant"]

/-- A small concrete record table used to instantiate the theorems. -/
def demo : List Record :=
  [⟨1, "Alpha", "Positive", "t1"⟩, ⟨2, "Alpha", "Negative", "t2"⟩,
   ⟨3, "Beta", "Neutral", "t3"⟩, ⟨4, "Alpha", "Positive", "t4"⟩]

lemma demo_metrics_eq :
    calculate_brand_metrics demo = [brandRow demo "Alpha", brandRow demo "Beta"] := rfl

/-! ### Helper lemmas -/

lemma mem_of_mem_uniqueAux {b : String} :
    ∀ {seen l : List String}, b ∈ uniqueAux seen l → b ∈ l := by
  intro seen l
  induction l generalizing seen with
  | nil => intro h; exact absurd h (List.not_mem_nil b)
  | cons a rest ih =>
      intro h
      simp only [uniqueAux] at h
      by_cases ha : a ∈ seen
      · simp only [if_pos ha] at h
        exact List.mem_cons_of_mem a (ih h)
      · simp only [if_neg ha, List.mem_cons] at h
        rcases h with h | h
        · exact h ▸ List.mem_cons_self a rest
        · exact List.mem_cons_of_mem a (ih h)

lemma exists_record_of_mem_uniqueBrands {df : List Record} {b : String}
    (h : b ∈ uniqueBrands df) : ∃ r ∈ df, r.brand = b := by
  have hb : b ∈ df.map (fun r => r.brand) := mem_of_mem_uniqueAux h
  rcases List.mem_map.mp hb with ⟨r, hr, hrb⟩
  exact ⟨r, hr, hrb⟩

lemma totalMentions_pos_of_mem {df : List Record} {b : String}
    (h : b ∈ uniqueBrands df) : 0 < totalMentions df b := by
  rcases exists_record_of_mem_uniqueBrands h with ⟨r, hr, hrb⟩
  have : r ∈ brandData df b := by
    simp only [brandData, List.mem_filter]
    exact ⟨hr, by simp [hrb]⟩
  exact List.length_pos.mpr (List.ne_nil_of_mem this)

lemma mem_calculate_brand_metrics {df : List Record} {m : BrandMetric} :
    m ∈ calculate_brand_metrics df ↔ ∃ b ∈ uniqueBrands df, brandRow df b = m := by
  unfold calculate_brand_metrics
  rw [List.mem_insertionSort]
  exact List.mem_map

/-! ### Claims -/

/-- C1: for every brand metric the health label is assigned from the (exact)
sentiment score by strict-inequality thresholds: score > 20 gives Excellent,
0 < score ≤ 20 gives Good, score < -20 gives Poor, -20 ≤ score ≤ 0 gives
Fair; in particular a score of exactly 20 gives Good and exactly -20 gives
Fair. -/
theorem health_label_thresholds (s : ℚ) :
    (20 < s → healthLabel s = "Excellent") ∧
    (0 < s → s ≤ 20 → healthLabel s = "Good") ∧
    (s < -20 → healthLabel s = "Poor") ∧
    (-20 ≤ s → s ≤ 0 → healthLabel s = "Fair") ∧
    healthLabel 20 = "Good" ∧ healthLabel (-20) = "Fair" ∧
    (∀ df : List Record, ∀ m ∈ calculate_brand_metrics df,
      m.brand_health = healthLabel (exactScore df m.brand)) := by
  refine ⟨?_, ?_, ?_, ?_, by norm_num [healthLabel], by norm_num [healthLabel], ?_⟩
  · intro h; simp [healthLabel, h]
  · intro h0 h20
    simp [healthLabel, h0, not_lt.mpr h20]
  · intro h
    have h1 : ¬ 20 < s := by linarith
    have h2 : ¬ 0 < s := by linarith
    simp [healthLabel, h1, h2, h]
  · intro hlo hhi
    have h1 : ¬ 20 < s := by linarith
    have h2 : ¬ 0 < s := by linarith
    have h3 : ¬ s < -20 := by linarith
    simp [healthLabel, h1, h2, h3]
  · intro df m hm
    rcases mem_calculate_brand_metrics.mp hm with ⟨b, _, hb⟩
    subst hb
    rfl

/-- Witness for C1 at concrete scores and at the demo table. -/
theorem health_label_thresholds_witness :
    healthLabel 21 = "Excellent" ∧ healthLabel 20 = "Good" ∧
    healthLabel (-21) = "Poor" ∧ healthLabel (-20) = "Fair" ∧
    (brandRow demo "Alpha").brand_health = healthLabel (exactScore demo "Alpha") :=
  ⟨(health_label_thresholds 21).1 (by norm_num),
   (health_label_thresholds 20).2.1 (by norm_num) (by norm_num),
   (health_label_thresholds (-21)).2.2.1 (by norm_num),
   (health_label_thresholds (-20)).2.2.2.1 (by norm_num) (by norm_num),
   (health_label_thresholds 0).2.2.2.2.2.2 demo (brandRow demo "Alpha")
     (by rw [demo_metrics_eq]; exact List.mem_cons_self _ _)⟩

/-- C5: the categorizer is total on brand strings and returns exactly one of
the five categories; brands in the static lists map to their industry and any
other brand maps to Other. -/
theorem categorize_brand_total (b : String) :
    categorize_brand b ∈ ["Technology", "Gaming", "Telecom", "Social Media", "Other"] ∧
    (b ∈ tech_brands → categorize_brand b = "Technology") ∧
    (b ∈ gaming_brands → categorize_brand b = "Gaming") ∧
    (b ∈ telecom_brands → categorize_brand b = "Telecom") ∧
    (b ∈ social_brands → categorize_brand b = "Social Media") ∧
    (b ∉ tech_brands → b ∉ gaming_brands → b ∉ telecom_brands → b ∉ social_brands →
      categorize_brand b = "Other") := by
  refine ⟨?_, ?_, ?_, ?_, ?_, ?_⟩
  · unfold categorize_brand
    split
    · simp
    split
    · simp
    split
    · simp
    split
    · simp
    · simp
  · intro h; simp [categorize_brand, h]
  · intro h
    simp only [gaming_brands] at h
    fin_cases h <;> rfl
  · intro h
    simp only [telecom_brands] at h
    fin_cases h <;> rfl
  · intro h
    simp only [social_brands] at h
    fin_cases h <;> rfl
  · intro h1 h2 h3 h4
    simp [categorize_brand, h1, h2, h3, h4]

/-- Witness for C5 at one brand from each static list and one unknown brand. -/
theorem categorize_brand_total_witness :
    categorize_brand "Google" = "Technology" ∧ categorize_brand "FIFA" = "Gaming" ∧
    categorize_brand "Verizon" = "Telecom" ∧ categorize_brand "Twitter" = "Social Media" ∧
    categorize_brand "Tesla" = "Other" :=
  ⟨(categorize_brand_total "Google").2.1 (by decide),
   (categorize_brand_total "FIFA").2.2.1 (by decide),
   (categorize_brand_total "Verizon").2.2.2.1 (by decide),
   (categorize_brand_total "Twitter").2.2.2.2.1 (by decide),
   (categorize_brand_total "Tesla").2.2.2.2.2 (by decide) (by decide) (by decide) (by decide)⟩

/-- C7: records are immutable: projecting the categorized table back onto the
original four columns returns the input table unchanged (so ids, brands,
sentiments and texts are untouched and no row is added, dropped or
reordered), and the added Category column is exactly the categorizer applied
to each row's brand. -/
theorem records_unchanged (df : List Record) :
    (addCategory df).map stripCategory = df ∧
    (addCategory df).map RecordC.category = df.map (fun r => categorize_brand r.brand) ∧
    (addCategory df).length = df.length := by
  refine ⟨?_, ?_, by simp [addCategory]⟩
  · induction df with
    | nil => rfl
    | cons r rest ih => simp [addCategory, stripCategory] at ih ⊢; exact ih
  · induction df with
    | nil => rfl
    | cons r rest ih => simp [addCategory, ih]

/-- C8: the output row of the metrics table has exactly the BrandMetric
columns, in the dict insertion order of the source, which matches the order
of the spec's struct definition: brand, total mentions, the four sentiment
counts, sentiment score, the two percentage columns, health label. -/
theorem metric_columns (m : BrandMetric) :
    (metricRow m).map Prod.fst =
      ["Brand", "Total_Mentions", "Positive", "Negative", "Neutral", "Irrelevant",
       "Sentiment_Score", "Positive_Ratio", "Negative_Ratio", "Brand_Health"] := rfl

/-- C10: the rows of the metric table are sorted by total mentions in
descending order: each row's total mentions is at least that of every later
row (hence of the row immediately after it). -/
theorem metrics_sorted_desc (df : List Record) :
    (calculate_brand_metrics df).Sorted
      (fun a b => b.total_mentions ≤ a.total_mentions) :=
  List.sorted_insertionSort byMentionsDesc _

lemma count_four_partition (l : List Record)
    (h : ∀ r ∈ l, r.sentiment ∈ sentimentLabels) :
    (l.filter (fun r => r.sentiment == "Positive")).length +
    (l.filter (fun r => r.sentiment == "Negative")).length +
    (l.filter (fun r => r.sentiment == "Neutral")).length +
    (l.filter (fun r => r.sentiment == "Irrelevant")).length = l.length := by
  induction l with
  | nil => rfl
  | cons r rest ih =>
      have hr : r.sentiment ∈ sentimentLabels := h r (List.mem_cons_self r rest)
      have ih' := ih (fun x hx => h x (List.mem_cons_of_mem r hx))
      simp only [sentimentLabels, List.mem_cons, List.not_mem_nil, or_false] at hr
      simp only [List.filter_cons, List.length_cons]
      rcases hr with h1 | h1 | h1 | h1 <;> rw [h1] <;> simp <;> omega

/-- C2: whenever every record's sentiment is one of the four enum labels,
every produced brand metric satisfies
positive + negative + neutral + irrelevant = total mentions. -/
theorem counts_partition (df : List Record) (m : BrandMetric)
    (hs : ∀ r ∈ df, r.sentiment ∈ sentimentLabels)
    (hm : m ∈ calculate_brand_metrics df) :
    m.positive + m.negative + m.neutral + m.irrelevant = m.total_mentions := by
  rcases mem_calculate_brand_metrics.mp hm with ⟨b, _, hb⟩
  subst hb
  exact count_four_partition (brandData df b)
    (fun r hr => hs r (List.mem_of_mem_filter hr))

/-- Witness for C2 at the demo table. -/
theorem counts_partition_witness :
    (brandRow demo "Alpha").positive + (brandRow demo "Alpha").negative +
      (brandRow demo "Alpha").neutral + (brandRow demo "Alpha").irrelevant =
      (brandRow demo "Alpha").total_mentions :=
  counts_partition demo (brandRow demo "Alpha") (by decide)
    (by rw [demo_metrics_eq]; exact List.mem_cons_self _ _)

/-- C6: the three rational metrics are guarded by the positive-total check and
default to 0 on a zero total; every brand in the iteration domain comes from an
existing record, so its total is at least 1 and every produced metric has
total mentions at least 1 (the defaulting branch is unreachable). -/
theorem zero_total_guard :
    (∀ (df : List Record) (b : String), totalMentions df b = 0 →
      exactScore df b = 0 ∧ pctOf df b "Positive" = 0 ∧ pctOf df b "Negative" = 0) ∧
    (∀ (df : List Record) (b : String), b ∈ uniqueBrands df → 0 < totalMentions df b) ∧
    (∀ df : List Record, ∀ m ∈ calculate_brand_metrics df, 1 ≤ m.total_mentions) := by
  refine ⟨?_, fun df b h => totalMentions_pos_of_mem h, ?_⟩
  · intro df b h
    have h' : ¬ 0 < totalMentions df b := by omega
    exact ⟨by simp [exactScore, h'], by simp [pctOf, h'], by simp [pctOf, h']⟩
  · intro df m hm
    rcases mem_calculate_brand_metrics.mp hm with ⟨b, hb, hbm⟩
    subst hbm
    exact totalMentions_pos_of_mem hb

/-- Witness for C6: a zero-total brand defaults to 0, and at the demo table the
iterated brand has a positive total. -/
theorem zero_total_guard_witness :
    exactScore [] "Gamma" = 0 ∧ 0 < totalMentions demo "Alpha" ∧
      1 ≤ (brandRow demo "Alpha").total_mentions :=
  ⟨(zero_total_guard.1 [] "Gamma" rfl).1,
   zero_total_guard.2.1 demo "Alpha" (by decide),
   zero_total_guard.2.2 demo (brandRow demo "Alpha")
     (by rw [demo_metrics_eq]; exact List.mem_cons_self _ _)⟩

/-- C4: for a brand with positive total, the unrounded sentiment score equals
(positive - negative) / total * 100 and equals the unrounded positive
percentage minus the unrounded negative percentage, over exact rational
arithmetic. -/
theorem score_decomposition (df : List Record) (b : String)
    (h : 0 < totalMentions df b) :
    exactScore df b =
      ((sentCount df b "Positive" : ℚ) - (sentCount df b "Negative" : ℚ)) /
        (totalMentions df b : ℚ) * 100 ∧
    exactScore df b = pctOf df b "Positive" - pctOf df b "Negative" := by
  have ht : ((totalMentions df b : ℚ)) ≠ 0 := Nat.cast_ne_zero.mpr h.ne'
  refine ⟨by simp [exactScore, h], ?_⟩
  simp only [exactScore, pctOf, if_pos h]
  field_simp
  ring

/-- Witness for C4 at the demo table. -/
theorem score_decomposition_witness :
    exactScore demo "Alpha" =
      ((sentCount demo "Alpha" "Positive" : ℚ) - (sentCount demo "Alpha" "Negative" : ℚ)) /
        (totalMentions demo "Alpha" : ℚ) * 100 ∧
    exactScore demo "Alpha" = pctOf demo "Alpha" "Positive" - pctOf demo "Alpha" "Negative" :=
  score_decomposition demo "Alpha" (by decide)

lemma roundHalfEven_le (x : ℚ) : (roundHalfEven x : ℚ) ≤ x + 1 / 2 := by
  simp only [roundHalfEven]
  have hf : (⌊x⌋ : ℚ) ≤ x := Int.floor_le x
  split
  · linarith
  split
  · rename_i h1 h2
    push_cast
    linarith [not_lt.mp h1]
  split
  · linarith
  · rename_i h1 h2 h3
    push_cast
    linarith [not_lt.mp h1]

lemma le_roundHalfEven (x : ℚ) : x - 1 / 2 ≤ (roundHalfEven x : ℚ) := by
  simp only [roundHalfEven]
  have hf : x < (⌊x⌋ : ℚ) + 1 := Int.lt_floor_add_one x
  split
  · rename_i h1
    linarith
  split
  · push_cast
    linarith
  split
  · rename_i h1 h2 h3
    linarith [not_lt.mp h2]
  · push_cast
    linarith

lemma exactScore_bounds (df : List Record) (b : String) :
    -100 ≤ exactScore df b ∧ exactScore df b ≤ 100 := by
  by_cases h : 0 < totalMentions df b
  · simp only [exactScore, if_pos h]
    have hp : (sentCount df b "Positive" : ℚ) ≤ (totalMentions df b : ℚ) :=
      Nat.cast_le.mpr (List.length_filter_le _ _)
    have hn : (sentCount df b "Negative" : ℚ) ≤ (totalMentions df b : ℚ) :=
      Nat.cast_le.mpr (List.length_filter_le _ _)
    have hp0 : (0 : ℚ) ≤ (sentCount df b "Positive" : ℚ) := Nat.cast_nonneg _
    have hn0 : (0 : ℚ) ≤ (sentCount df b "Negative" : ℚ) := Nat.cast_nonneg _
    have ht : (0 : ℚ) < (totalMentions df b : ℚ) := by exact_mod_cast h
    constructor
    · rw [div_mul_eq_mul_div, le_div_iff₀ ht]
      nlinarith
    · rw [div_mul_eq_mul_div, div_le_iff₀ ht]
      nlinarith
  · simp [exactScore, h]

lemma roundTo2_bounds {x : ℚ} (h1 : -100 ≤ x) (h2 : x ≤ 100) :
    -100 ≤ roundTo2 x ∧ roundTo2 x ≤ 100 := by
  unfold roundTo2
  have hu : (roundHalfEven (x * 100) : ℚ) ≤ x * 100 + 1 / 2 := roundHalfEven_le _
  have hl : x * 100 - 1 / 2 ≤ (roundHalfEven (x * 100) : ℚ) := le_roundHalfEven _
  have hub : roundHalfEven (x * 100) < 10001 := by
    have : (roundHalfEven (x * 100) : ℚ) < 10001 := by linarith
    exact_mod_cast this
  have hlb : -10001 < roundHalfEven (x * 100) := by
    have : (-10001 : ℚ) < (roundHalfEven (x * 100) : ℚ) := by linarith
    exact_mod_cast this
  have hub' : (roundHalfEven (x * 100) : ℚ) ≤ 10000 := by
    exact_mod_cast Int.lt_add_one_iff.mp hub
  have hlb' : (-10000 : ℚ) ≤ (roundHalfEven (x * 100) : ℚ) := by
    exact_mod_cast Int.add_one_le_iff.mpr hlb
  constructor <;> [linarith; linarith]

/-- C3: every produced brand metric's stored sentiment score lies in the closed
interval [-100, 100] (the exact score lies there and two-decimal rounding
keeps it there). -/
theorem score_in_range (df : List Record) (m : BrandMetric)
    (hm : m ∈ calculate_brand_metrics df) :
    -100 ≤ m.sentiment_score ∧ m.sentiment_score ≤ 100 := by
  rcases mem_calculate_brand_metrics.mp hm with ⟨b, _, hb⟩
  subst hb
  show -100 ≤ roundTo2 (exactScore df b) ∧ roundTo2 (exactScore df b) ≤ 100
  exact roundTo2_bounds (exactScore_bounds df b).1 (exactScore_bounds df b).2

/-- Witness for C3 at the demo table. -/
theorem score_in_range_witness :
    -100 ≤ (brandRow demo "Alpha").sentiment_score ∧
      (brandRow demo "Alpha").sentiment_score ≤ 100 :=
  score_in_range demo (brandRow demo "Alpha")
    (by rw [demo_metrics_eq]; exact List.mem_cons_self _ _)

/-! ### A boundary table for the rounding claim: one brand with 801 positive
and 3203 neutral records, whose exact score 20.004995... exceeds 20 but is
stored rounded as exactly 20.00. -/

/-- A positive record of the boundary table. -/
def rPos : Record := ⟨0, "Bravo", "Positive", "t"⟩

/-- A neutral record of the boundary table. -/
def rNeu : Record := ⟨1, "Bravo", "Neutral", "t"⟩

/-- The boundary table: 801 positive and 3203 neutral mentions of one brand. -/
def df9 : List Record := List.replicate 801 rPos ++ List.replicate 3203 rNeu

lemma filter_rep {α : Type} (p : α → Bool) (a : α) (n : Nat) :
    (List.replicate n a).filter p = if p a then List.replicate n a else [] := by
  induction n with
  | zero => simp
  | succ n ih =>
      rw [List.replicate_succ, List.filter_cons, ih]
      by_cases h : p a <;> simp [h, List.replicate_succ]

lemma uniqueAux_replicate_append {a : String} {seen : List String} (h : a ∈ seen)
    (n : Nat) (l : List String) :
    uniqueAux seen (List.replicate n a ++ l) = uniqueAux seen l := by
  induction n with
  | zero => rfl
  | succ n ih => rw [List.replicate_succ, List.cons_append, uniqueAux, if_pos h, ih]

lemma uniqueBrands_df9 : uniqueBrands df9 = ["Bravo"] := by
  have hmap : df9.map (fun r => r.brand) =
      List.replicate 801 "Bravo" ++ List.replicate 3203 "Bravo" := by
    rw [df9, List.map_append, List.map_replicate, List.map_replicate]
    rfl
  rw [uniqueBrands, hmap,
      show List.replicate 801 "Bravo" = "Bravo" :: List.replicate 800 "Bravo" from rfl,
      List.cons_append, uniqueAux]
  rw [if_neg (List.not_mem_nil "Bravo"),
      uniqueAux_replicate_append (List.mem_cons_self "Bravo" []) 800,
      ← List.append_nil (List.replicate 3203 "Bravo"),
      uniqueAux_replicate_append (List.mem_cons_self "Bravo" []) 3203]
  rfl

lemma brandData_df9 : brandData df9 "Bravo" = df9 := by
  rw [brandData, df9, List.filter_append, filter_rep, filter_rep,
      if_pos (show ((fun r => r.brand == "Bravo") rPos) = true from rfl),
      if_pos (show ((fun r => r.brand == "Bravo") rNeu) = true from rfl)]

lemma total_df9 : totalMentions df9 "Bravo" = 4004 := by
  rw [totalMentions, brandData_df9, df9, List.length_append,
      List.length_replicate, List.length_replicate]

lemma pos_df9 : sentCount df9 "Bravo" "Positive" = 801 := by
  rw [sentCount, brandData_df9, df9, List.filter_append, filter_rep, filter_rep,
      if_pos (show ((fun r => r.sentiment == "Positive") rPos) = true from rfl),
      if_neg (show ¬ ((fun r => r.sentiment == "Positive") rNeu) = true from by decide),
      List.append_nil, List.length_replicate]

lemma neg_df9 : sentCount df9 "Bravo" "Negative" = 0 := by
  rw [sentCount, brandData_df9, df9, List.filter_append, filter_rep, filter_rep,
      if_neg (show ¬ ((fun r => r.sentiment == "Negative") rPos) = true from by decide),
      if_neg (show ¬ ((fun r => r.sentiment == "Negative") rNeu) = true from by decide),
      List.append_nil]
  rfl

lemma exactScore_df9 : exactScore df9 "Bravo" = 20025 / 1001 := by
  rw [exactScore]
  rw [if_pos (by rw [total_df9]; norm_num), total_df9, pos_df9, neg_df9]
  norm_num

/-- C9: the health label is computed from the exact (unrounded) score while
the stored score is rounded to two decimals, so on the boundary table the
exact score exceeds 20, the stored score is exactly 20, and the stored label
is Excellent: the stored score/label pair violates the strict-threshold
relation that holds for the exact score. -/
theorem label_from_exact_score_not_stored :
    (∀ (df : List Record) (b : String),
      (brandRow df b).brand_health = healthLabel (exactScore df b) ∧
      (brandRow df b).sentiment_score = roundTo2 (exactScore df b)) ∧
    20 < exactScore df9 "Bravo" ∧
    (brandRow df9 "Bravo").sentiment_score = 20 ∧
    (brandRow df9 "Bravo").brand_health = "Excellent" ∧
    calculate_brand_metrics df9 = [brandRow df9 "Bravo"] := by
  refine ⟨fun df b => ⟨rfl, rfl⟩, ?_, ?_, ?_, ?_⟩
  · rw [exactScore_df9]; norm_num
  · simp only [brandRow]
    rw [exactScore_df9, roundTo2, roundHalfEven]
    norm_num
  · simp only [brandRow]
    rw [exactScore_df9, healthLabel]
    norm_num
  · rw [calculate_brand_metrics, uniqueBrands_df9]
    rfl

end TwitterSentiment
